import Mathlib

/-!
Verification of the metrics-aggregation core of the marketing-campaign
dashboard (`src/app.py`).  The aggregators are pure transformations over an
in-memory row collection; we embed them as Lean functions over `List Row`,
with rational numbers standing for the numeric column values, and prove the
specified properties about them.
-/

/-- One event record (one row of the loaded dataframe).  `ts_date` is the
calendar date carried by the row's timestamp (as an integer day ordinal) and
`ts_time` the within-day remainder; the aggregation core only ever looks at
the date part (`df["timestamp"].dt.date`). -/
structure Row where
  user_id : String
  ts_date : Int
  ts_time : Nat
  campaign_id : String
  device_type : String
  location : String
  clicked_ad : Nat
  products_viewed : Nat
  added_to_cart : Nat
  purchased : Nat
  purchase_amount : ℚ
  deriving DecidableEq, Repr

/-- Sum of the `clicked_ad` column over a row subset. -/
def sumClicked (rows : List Row) : Nat :=
  (rows.map Row.clicked_ad).sum

/-- Sum of the `purchased` column over a row subset. -/
def sumPurchased (rows : List Row) : Nat :=
  (rows.map Row.purchased).sum

/-- Sum of the `purchase_amount` column over a row subset. -/
def sumRevenue (rows : List Row) : ℚ :=
  (rows.map Row.purchase_amount).sum

/-- The Filter Stage (`src/app.py` line 20):
`df[df["campaign_id"].isin(campaign) & df["device_type"].isin(device)
& df["location"].isin(location)]`. -/
def filterRows (rows : List Row) (campaign device location : List String) :
    List Row :=
  rows.filter fun r =>
    campaign.contains r.campaign_id && device.contains r.device_type &&
      location.contains r.location

/-- The KPI result record (`KpiSet`). -/
structure KpiSet where
  total_users : Nat
  ctr_pct : ℚ
  conversion_rate_pct : ℚ
  aov : ℚ
  deriving DecidableEq, Repr

/-- The KPI Aggregator (`src/app.py` lines 31-38):
`total_users = len(df)`, `ctr = (clicked / total_users) * 100 if total_users
else 0`, `conversion_rate = (purchased / total_users) * 100 if total_users
else 0`, `aov = revenue / purchased if purchased else 0`. -/
def kpis (rows : List Row) : KpiSet :=
  let total_users := rows.length
  let clicked := sumClicked rows
  let purchased := sumPurchased rows
  let revenue := sumRevenue rows
  { total_users := total_users
    ctr_pct := if total_users ≠ 0 then ((clicked : ℚ) / total_users) * 100 else 0
    conversion_rate_pct :=
      if total_users ≠ 0 then ((purchased : ℚ) / total_users) * 100 else 0
    aov := if purchased ≠ 0 then revenue / purchased else 0 }

/-- The Funnel Aggregator (`src/app.py` lines 57-62): a fixed-order list of
(stage name, count) pairs. -/
def funnel (rows : List Row) : List (String × Nat) :=
  [("Clicked Ad", sumClicked rows),
   ("Viewed Product", (rows.filter fun r => r.products_viewed > 0).length),
   ("Added to Cart", (rows.filter fun r => r.added_to_cart > 0).length),
   ("Purchased", sumPurchased rows)]

/-- The distinct calendar dates present in a subset, ascending (pandas
`groupby("date")` sorts its group keys ascending). -/
def dailyKeys (rows : List Row) : List Int :=
  (rows.map Row.ts_date).toFinset.sort (· ≤ ·)

/-- The Time-Series Aggregator (`src/app.py` lines 77-78):
`df.groupby("date").agg(purchases=("purchased", "sum"))`, one entry per
distinct date present, keys ascending. -/
def daily (rows : List Row) : List (Int × Nat) :=
  (dailyKeys rows).map fun d =>
    (d, sumPurchased (rows.filter fun r => r.ts_date = d))

/-- One output row of the Campaign Rollup. -/
structure CampaignRow where
  campaign_id : String
  users : Nat
  clicks : Nat
  purchases : Nat
  revenue : ℚ
  ctr_pct : ℚ
  conversion_rate_pct : ℚ
  aov : ℚ
  deriving DecidableEq, Repr

/-- The distinct campaign ids present in a subset (grouping keys). -/
def campaignKeys (rows : List Row) : List String :=
  (rows.map Row.campaign_id).dedup

/-- The rows of one campaign group. -/
def campaignGroup (rows : List Row) (c : String) : List Row :=
  rows.filter fun r => r.campaign_id = c

/-- The Campaign Rollup (`src/app.py` lines 92-100): per campaign group,
`users = count`, `clicks`, `purchases`, `revenue` are sums, ratios are
`clicks/users*100`, `purchases/users*100`, and
`aov = revenue / purchases.replace(0, 1)`. -/
def campaign_perf (rows : List Row) : List CampaignRow :=
  (campaignKeys rows).map fun c =>
    let g := campaignGroup rows c
    let users := g.length
    let clicks := sumClicked g
    let purchases := sumPurchased g
    let revenue := sumRevenue g
    { campaign_id := c
      users := users
      clicks := clicks
      purchases := purchases
      revenue := revenue
      ctr_pct := (clicks : ℚ) / users * 100
      conversion_rate_pct := (purchases : ℚ) / users * 100
      aov := revenue / (if purchases = 0 then 1 else (purchases : ℚ)) }

/-- One output row of the Location Rollup. -/
structure LocationRow where
  location : String
  users : Nat
  purchases : Nat
  conversion_rate_pct : ℚ
  deriving DecidableEq, Repr

/-- The distinct locations present in a subset (grouping keys). -/
def locationKeys (rows : List Row) : List String :=
  (rows.map Row.location).dedup

/-- The rows of one location group. -/
def locationGroup (rows : List Row) (l : String) : List Row :=
  rows.filter fun r => r.location = l

/-- The ungrouped Location Rollup table (`src/app.py` lines 168-172), one row
per distinct location, before sorting and truncation. -/
def locTable (rows : List Row) : List LocationRow :=
  (locationKeys rows).map fun l =>
    let g := locationGroup rows l
    { location := l
      users := g.length
      purchases := sumPurchased g
      conversion_rate_pct := (sumPurchased g : ℚ) / g.length * 100 }

/-- Ordering used by the Location Rollup: descending conversion rate. -/
def locGE (a b : LocationRow) : Prop :=
  b.conversion_rate_pct ≤ a.conversion_rate_pct

instance : DecidableRel locGE := fun a b =>
  inferInstanceAs (Decidable (b.conversion_rate_pct ≤ a.conversion_rate_pct))

instance : IsTotal LocationRow locGE :=
  ⟨fun a b => le_total b.conversion_rate_pct a.conversion_rate_pct⟩

instance : IsTrans LocationRow locGE :=
  ⟨fun _ _ _ h h2 => le_trans h2 h⟩

/-- The Location Rollup (`src/app.py` lines 168-175): sort descending by
conversion rate, keep the first `n` entries (`top_n = 15` in the source). -/
def loc_df (rows : List Row) (n : Nat) : List LocationRow :=
  ((locTable rows).insertionSort locGE).take n

/-- The source's hard-coded top-N parameter (`top_n = 15`). -/
def top_n : Nat := 15

/-! ### Sample inputs used by the witnesses -/

/-- A sample row: campaign "A", mobile, New York, clicked and purchased $50. -/
def sampleRow : Row :=
  { user_id := "u1", ts_date := 0, ts_time := 30, campaign_id := "A",
    device_type := "mobile", location := "NY", clicked_ad := 1,
    products_viewed := 2, added_to_cart := 1, purchased := 1,
    purchase_amount := 50 }

/-- A row that added to cart without clicking the ad (funnel quirk input). -/
def cartOnlyRow : Row :=
  { user_id := "u2", ts_date := 3, ts_time := 0, campaign_id := "B",
    device_type := "desktop", location := "LA", clicked_ad := 0,
    products_viewed := 0, added_to_cart := 2, purchased := 0,
    purchase_amount := 0 }

/-- The campaign rollup row produced for `[sampleRow]`. -/
def sampleCampaignRow : CampaignRow :=
  { campaign_id := "A", users := 1, clicks := 1, purchases := 1, revenue := 50,
    ctr_pct := 100, conversion_rate_pct := 100, aov := 50 }

/-- The location rollup row produced for `[sampleRow]`. -/
def sampleLocationRow : LocationRow :=
  { location := "NY", users := 1, purchases := 1, conversion_rate_pct := 100 }

/-! ### Claim theorems -/

/-- C1: the KPI Aggregator returns `total_users` = row count,
`ctr_pct` = 100 × (sum of clicked_ad) / total_users (0 when total_users = 0),
`conversion_rate_pct` = 100 × (sum of purchased) / total_users (same guard),
and `aov` = (sum of purchase_amount) / (sum of purchased) (0 when that sum
is 0); all values are well-defined rationals, never NaN/undefined. -/
theorem kpis_correct (rows : List Row) :
    (kpis rows).total_users = rows.length ∧
    (kpis rows).ctr_pct =
      (if rows.length = 0 then 0 else
        100 * (sumClicked rows : ℚ) / rows.length) ∧
    (kpis rows).conversion_rate_pct =
      (if rows.length = 0 then 0 else
        100 * (sumPurchased rows : ℚ) / rows.length) ∧
    (kpis rows).aov =
      (if sumPurchased rows = 0 then 0 else
        sumRevenue rows / (sumPurchased rows : ℚ)) := by
  refine ⟨rfl, ?_, ?_, ?_⟩ <;>
  · simp only [kpis]
    split_ifs with h h2 <;> simp_all <;> ring

/-- C3: the Filter Stage returns exactly the rows whose `campaign_id`,
`device_type` and `location` each belong to the corresponding allowed set
(AND across dimensions, OR within a set), and an empty allowed set for any
dimension yields an empty result. -/
theorem filterRows_correct (rows : List Row) (c d l : List String) :
    (∀ r : Row, r ∈ filterRows rows c d l ↔
      r ∈ rows ∧ r.campaign_id ∈ c ∧ r.device_type ∈ d ∧ r.location ∈ l) ∧
    (c = [] → filterRows rows c d l = []) ∧
    (d = [] → filterRows rows c d l = []) ∧
    (l = [] → filterRows rows c d l = []) := by
  refine ⟨fun r => ?_, fun hc => ?_, fun hd => ?_, fun hl => ?_⟩
  · simp [filterRows, List.mem_filter, and_assoc]
  · subst hc; simp [filterRows]
  · subst hd; simp [filterRows]
  · subst hl; simp [filterRows]

/-- C3 witness: a concrete row passes a matching filter, and an empty
campaign set produces the empty result. -/
theorem filterRows_correct_witness :
    sampleRow ∈ filterRows [sampleRow] ["A"] ["mobile", "desktop"] ["NY"] ∧
    filterRows [sampleRow] [] ["mobile"] ["NY"] = [] :=
  ⟨((filterRows_correct [sampleRow] ["A"] ["mobile", "desktop"] ["NY"]).1
      sampleRow).mpr (by decide),
   (filterRows_correct [sampleRow] [] ["mobile"] ["NY"]).2.1 rfl⟩

/-- C4: the Funnel Aggregator outputs exactly four (stage, count) pairs in
the fixed order Clicked Ad, Viewed Product, Added to Cart, Purchased, with
the specified count for each stage. -/
theorem funnel_correct (rows : List Row) :
    funnel rows =
      [("Clicked Ad", sumClicked rows),
       ("Viewed Product", rows.countP fun r => r.products_viewed > 0),
       ("Added to Cart", rows.countP fun r => r.added_to_cart > 0),
       ("Purchased", sumPurchased rows)] := by
  simp [funnel, List.countP_eq_length_filter]

/-- C5: the funnel stages are independent counts, not a monotone funnel:
on a single row with `clicked_ad = 0` and `added_to_cart > 0` the
"Added to Cart" count (stage 3) strictly exceeds the "Clicked Ad" count
(stage 1). -/
theorem funnel_not_monotonic :
    ∃ rows : List Row, ∃ cA cV cC cP : Nat,
      funnel rows = [("Clicked Ad", cA), ("Viewed Product", cV),
        ("Added to Cart", cC), ("Purchased", cP)] ∧ cA < cC :=
  ⟨[cartOnlyRow], 0, 0, 1, 0, by decide, by decide⟩

/-- C9: on the empty row subset every aggregator returns the zero/empty
result: KPIs all 0, funnel counts all 0, empty campaign and location
rollups, empty daily series. -/
theorem empty_subset_results :
    kpis [] = ⟨0, 0, 0, 0⟩ ∧
    funnel [] = [("Clicked Ad", 0), ("Viewed Product", 0),
      ("Added to Cart", 0), ("Purchased", 0)] ∧
    campaign_perf [] = [] ∧
    loc_df [] top_n = [] ∧
    daily [] = [] := by
  refine ⟨rfl, rfl, rfl, rfl, ?_⟩
  simp [daily, dailyKeys]

/-- Helper: membership in the campaign rollup comes from a present campaign
id, with the output row computed from that campaign's group. -/
theorem mem_campaign_perf {rows : List Row} {cr : CampaignRow}
    (h : cr ∈ campaign_perf rows) :
    ∃ c ∈ campaignKeys rows,
      cr = { campaign_id := c
             users := (campaignGroup rows c).length
             clicks := sumClicked (campaignGroup rows c)
             purchases := sumPurchased (campaignGroup rows c)
             revenue := sumRevenue (campaignGroup rows c)
             ctr_pct := (sumClicked (campaignGroup rows c) : ℚ) /
               (campaignGroup rows c).length * 100
             conversion_rate_pct :=
               (sumPurchased (campaignGroup rows c) : ℚ) /
                 (campaignGroup rows c).length * 100
             aov := sumRevenue (campaignGroup rows c) /
               (if sumPurchased (campaignGroup rows c) = 0 then 1 else
                 (sumPurchased (campaignGroup rows c) : ℚ)) } := by
  obtain ⟨c, hc, rfl⟩ := List.mem_map.mp h
  exact ⟨c, hc, rfl⟩

/-- C2: every row of the Campaign Rollup carries its group's row count,
clicked/purchased sums and revenue, with `ctr_pct` = 100×clicks/users,
`conversion_rate_pct` = 100×purchases/users, and
`aov` = revenue / max(purchases, 1); in particular a group with zero
purchases gets `aov` = revenue. -/
theorem campaign_perf_correct (rows : List Row) (cr : CampaignRow)
    (h : cr ∈ campaign_perf rows) :
    cr.users = (campaignGroup rows cr.campaign_id).length ∧
    cr.clicks = sumClicked (campaignGroup rows cr.campaign_id) ∧
    cr.purchases = sumPurchased (campaignGroup rows cr.campaign_id) ∧
    cr.revenue = sumRevenue (campaignGroup rows cr.campaign_id) ∧
    cr.ctr_pct = 100 * (cr.clicks : ℚ) / cr.users ∧
    cr.conversion_rate_pct = 100 * (cr.purchases : ℚ) / cr.users ∧
    cr.aov = cr.revenue / max (cr.purchases : ℚ) 1 ∧
    (cr.purchases = 0 → cr.aov = cr.revenue) := by
  obtain ⟨c, _, rfl⟩ := mem_campaign_perf h
  refine ⟨rfl, rfl, rfl, rfl, by ring, by ring, ?_, ?_⟩
  · by_cases hp : sumPurchased (campaignGroup rows c) = 0
    · simp [hp]
    · have h1 : (1 : ℚ) ≤ (sumPurchased (campaignGroup rows c) : ℚ) := by
        exact_mod_cast Nat.one_le_iff_ne_zero.mpr hp
      simp [hp, max_eq_left h1]
  · intro hp
    simp only [] at hp
    simp [hp]

/-- C2 witness: the theorem instantiated on the one-row subset `[sampleRow]`
and its rollup row. -/
theorem campaign_perf_correct_witness :
    sampleCampaignRow.users =
      (campaignGroup [sampleRow] sampleCampaignRow.campaign_id).length ∧
    sampleCampaignRow.clicks =
      sumClicked (campaignGroup [sampleRow] sampleCampaignRow.campaign_id) ∧
    sampleCampaignRow.purchases =
      sumPurchased (campaignGroup [sampleRow] sampleCampaignRow.campaign_id) ∧
    sampleCampaignRow.revenue =
      sumRevenue (campaignGroup [sampleRow] sampleCampaignRow.campaign_id) ∧
    sampleCampaignRow.ctr_pct =
      100 * (sampleCampaignRow.clicks : ℚ) / sampleCampaignRow.users ∧
    sampleCampaignRow.conversion_rate_pct =
      100 * (sampleCampaignRow.purchases : ℚ) / sampleCampaignRow.users ∧
    sampleCampaignRow.aov =
      sampleCampaignRow.revenue / max (sampleCampaignRow.purchases : ℚ) 1 ∧
    (sampleCampaignRow.purchases = 0 →
      sampleCampaignRow.aov = sampleCampaignRow.revenue) :=
  campaign_perf_correct [sampleRow] sampleCampaignRow (by
    norm_num [campaign_perf, campaignKeys, campaignGroup, sumClicked,
      sumPurchased, sumRevenue, sampleRow, sampleCampaignRow])

/-- Helper: rows matching key `b` under `f` are counted by `count b` on the
mapped key list. -/
theorem length_filter_eq_count_map {α β : Type} [DecidableEq β]
    (l : List α) (f : α → β) (b : β) :
    (l.filter fun a => f a = b).length = (l.map f).count b := by
  induction l with
  | nil => rfl
  | cons a t ih =>
    by_cases h : f a = b <;>
      simp [List.filter_cons, List.count_cons, h, ih]

/-- Helper: grouping a list by a key function partitions it, so the group
sizes over the distinct keys sum to the list's length. -/
theorem sum_groups_length {α β : Type} [DecidableEq α] [DecidableEq β]
    (l : List α) (f : α → β) :
    ((l.map f).dedup.map fun b => (l.filter fun a => f a = b).length).sum
      = l.length := by
  have h := List.sum_map_count_dedup_eq_length (l.map f)
  rw [List.length_map] at h
  rw [← h]
  apply congrArg
  apply List.map_congr_left
  intro b _
  exact length_filter_eq_count_map l f b

/-- C8: partition property — the `users` fields of the Campaign Rollup sum
to the KPI Aggregator's `total_users` over the same subset. -/
theorem campaign_users_partition (rows : List Row) :
    ((campaign_perf rows).map CampaignRow.users).sum =
      (kpis rows).total_users := by
  have h := sum_groups_length rows Row.campaign_id
  simp only [campaign_perf, campaignKeys, campaignGroup, List.map_map,
    Function.comp, kpis]
  exact h

/-- C10: every campaign group is built from at least one present row, so the
`users` denominator of the rollup's `ctr_pct` and `conversion_rate_pct` is
never zero. -/
theorem campaign_users_pos (rows : List Row) (cr : CampaignRow)
    (h : cr ∈ campaign_perf rows) : 1 ≤ cr.users := by
  obtain ⟨c, hc, rfl⟩ := mem_campaign_perf h
  simp only [campaignKeys] at hc
  obtain ⟨r, hr, hrc⟩ := List.mem_map.mp (List.mem_dedup.mp hc)
  have hm : r ∈ campaignGroup rows c :=
    List.mem_filter.mpr ⟨hr, by simp [hrc]⟩
  show 1 ≤ (campaignGroup rows c).length
  exact List.length_pos.mpr (List.ne_nil_of_mem hm)

/-- C10 witness: the rollup row for `[sampleRow]` has a positive user
count. -/
theorem campaign_users_pos_witness : 1 ≤ sampleCampaignRow.users :=
  campaign_users_pos [sampleRow] sampleCampaignRow (by
    norm_num [campaign_perf, campaignKeys, campaignGroup, sumClicked,
      sumPurchased, sumRevenue, sampleRow, sampleCampaignRow])

/-- C6: the daily series has one (date, purchase_count) entry per distinct
calendar date present in the subset, keys strictly ascending (hence no
zero-filled dates), each count being the purchased-sum of the rows whose
timestamp truncates to that date. -/
theorem daily_correct (rows : List Row) :
    List.Sorted (· < ·) ((daily rows).map Prod.fst) ∧
    (∀ d : Int, d ∈ (daily rows).map Prod.fst ↔ ∃ r ∈ rows, r.ts_date = d) ∧
    (∀ p ∈ daily rows,
      p.2 = sumPurchased (rows.filter fun r => r.ts_date = p.1)) := by
  have hfst : (daily rows).map Prod.fst = dailyKeys rows := by
    simp only [daily, List.map_map]
    exact List.map_id _
  refine ⟨?_, fun d => ?_, fun p hp => ?_⟩
  · rw [hfst]
    exact Finset.sort_sorted_lt _
  · rw [hfst]
    simp [dailyKeys]
  · obtain ⟨d, _, rfl⟩ := List.mem_map.mp hp
    rfl

/-- C6 witness: the theorem instantiated on `[sampleRow]`, whose single date
0 appears with purchase count 1. -/
theorem daily_correct_witness :
    ((0 : Int) ∈ (daily [sampleRow]).map Prod.fst ↔
      ∃ r ∈ [sampleRow], r.ts_date = 0) ∧
    (((0 : Int), (1 : Nat)).2 =
      sumPurchased ([sampleRow].filter fun r =>
        r.ts_date = ((0 : Int), (1 : Nat)).1)) :=
  ⟨(daily_correct [sampleRow]).2.1 0,
   (daily_correct [sampleRow]).2.2 (0, 1) (by
     simp [daily, dailyKeys, sampleRow, sumPurchased])⟩

/-- Helper: the locations listed by the ungrouped location table are exactly
the distinct locations present. -/
theorem locTable_map_location (rows : List Row) :
    (locTable rows).map LocationRow.location = locationKeys rows := by
  simp only [locTable, List.map_map]
  exact List.map_id _

/-- C7: the Location Rollup has at most min(N, #distinct locations) entries,
is sorted descending by conversion rate, lists pairwise-distinct locations,
and per entry carries its group's row count, purchased sum, and
`conversion_rate_pct` = 100×purchases/users. -/
theorem loc_df_correct (rows : List Row) (n : Nat) :
    (loc_df rows n).length ≤ min n (locationKeys rows).length ∧
    List.Sorted locGE (loc_df rows n) ∧
    ((loc_df rows n).map LocationRow.location).Nodup ∧
    ∀ lr ∈ loc_df rows n,
      lr.users = (locationGroup rows lr.location).length ∧
      lr.purchases = sumPurchased (locationGroup rows lr.location) ∧
      lr.conversion_rate_pct = 100 * (lr.purchases : ℚ) / lr.users := by
  refine ⟨?_, ?_, ?_, fun lr hlr => ?_⟩
  · simp [loc_df, List.length_take, List.length_insertionSort, locTable]
  · exact (List.sorted_insertionSort locGE (locTable rows)).sublist
      (List.take_sublist n _)
  · have hperm : List.Perm ((locTable rows).insertionSort locGE)
        (locTable rows) := List.perm_insertionSort locGE (locTable rows)
    have hnd : (((locTable rows).insertionSort locGE).map
        LocationRow.location).Nodup := by
      rw [(hperm.map LocationRow.location).nodup_iff, locTable_map_location]
      exact List.nodup_dedup _
    exact hnd.sublist ((List.take_sublist n _).map LocationRow.location)
  · have h1 : lr ∈ (locTable rows).insertionSort locGE :=
      List.mem_of_mem_take hlr
    have h2 : lr ∈ locTable rows := (List.mem_insertionSort locGE).mp h1
    obtain ⟨lkey, _, rfl⟩ := List.mem_map.mp h2
    refine ⟨rfl, rfl, ?_⟩
    show (sumPurchased (locationGroup rows lkey) : ℚ) /
        (locationGroup rows lkey).length * 100 =
      100 * (sumPurchased (locationGroup rows lkey) : ℚ) /
        (locationGroup rows lkey).length
    ring

/-- C7 witness: the theorem instantiated on `[sampleRow]` with the source's
default N = 15. -/
theorem loc_df_correct_witness :
    (loc_df [sampleRow] top_n).length ≤
      min top_n (locationKeys [sampleRow]).length ∧
    sampleLocationRow.users =
      (locationGroup [sampleRow] sampleLocationRow.location).length :=
  ⟨(loc_df_correct [sampleRow] top_n).1,
   ((loc_df_correct [sampleRow] top_n).2.2.2 sampleLocationRow (by
     norm_num [loc_df, locTable, locationKeys, locationGroup, sumPurchased,
       sampleRow, sampleLocationRow, List.insertionSort, List.orderedInsert,
       top_n])).1⟩
